import Mathlib

set_option maxRecDepth 100000

/-!
Verification of the org-policy checker (`checker/verify_org_policy.py`).

The script is embedded shallowly: the filesystem is an explicit map from
path strings to file entries, the results of the external library calls
`Path.read_text` and `json.loads` are recorded in each entry, and `run`
is a pure function from the filesystem and the parsed CLI arguments to
the exit code together with the list of lines printed.  Structured JSON
output (`print(json.dumps(payload))`) is modelled by the payload value
itself, since `json.dumps` is injective on payloads.
-/

/-- A parsed JSON value, the result type of `json.loads`.  Objects are
association lists; `json.loads` produces Python dicts, so keys are
distinct and `List.lookup` (first match) is dict lookup. -/
inductive JsonVal where
  | null
  | bool (b : Bool)
  | num (n : Int)
  | str (s : String)
  | arr (elems : List JsonVal)
  | obj (fields : List (String × JsonVal))

/-- One observable output action of the script: a JSON payload printed to
stdout via `print(json.dumps(v))`, or a line printed to stderr. -/
inductive OutEvent where
  | jsonOut (v : JsonVal)
  | stderrLine (s : String)

/-- The state of one filesystem path: whether the entry is a regular file,
its `stat().st_size`, what `read_text` returns (or the message of the
exception it raises), and what `json.loads` returns on its contents (or
the message of the exception it raises; consulted only after a
successful read). -/
structure FileEntry where
  isFile : Bool
  size : Nat
  readResult : Except String String
  parseResult : Except String JsonVal

/-- A filesystem state: `none` means the path does not exist. -/
def FS : Type := String → Option FileEntry

/-- The parsed CLI arguments: `--guide` (optional path) and `--json`. -/
structure Args where
  guide : Option String
  jsonFlag : Bool

-- ----------------------------- Constants -----------------------------

def CANON_PATHS : List String :=
  ["docs/MULTI_DOCUMENT_ENTERPRISE_CODING_PRINCIPLES_GUIDE.md",
   ".github/policy/MULTI_DOCUMENT_ENTERPRISE_CODING_PRINCIPLES_GUIDE.md"]

def COMPLIANCE_JSON : String := "policy/compliance.json"

/-- `tuple(f"Principle {i}:" for i in range(1, 19))`. -/
def PRINCIPLES : List String :=
  (List.range 18).map (fun i => "Principle " ++ toString (i + 1) ++ ":")

/-- The manifest keys `[f"P{i}" for i in range(1, 19)]`. -/
def pKeys : List String :=
  (List.range 18).map (fun i => "P" ++ toString (i + 1))

def EXIT_OK : Nat := 0
def EXIT_VIOLATION : Nat := 2
def EXIT_ERROR : Nat := 1

-- ----------------------------- Helpers -------------------------------

/-- Python's substring test `pat in text`: contiguous containment of the
pattern's characters in the text's characters. -/
def strContains (text pat : String) : Bool :=
  decide (pat.data <:+: text.data)

/-- The characters Python's `str.strip()` removes: exactly the code
points for which CPython's `str.isspace()` is true, i.e. the Unicode
whitespace set U+0009..U+000D, U+001C..U+001F, U+0020, U+0085, U+00A0,
U+1680, U+2000..U+200A, U+2028, U+2029, U+202F, U+205F and U+3000. -/
def pyIsSpace (c : Char) : Bool :=
  (decide (0x09 ≤ c.toNat) && decide (c.toNat ≤ 0x0D))
  || (decide (0x1C ≤ c.toNat) && decide (c.toNat ≤ 0x1F))
  || (decide (0x2000 ≤ c.toNat) && decide (c.toNat ≤ 0x200A))
  || [0x20, 0x85, 0xA0, 0x1680, 0x2028, 0x2029,
      0x202F, 0x205F, 0x3000].contains c.toNat

/-- Python's `s.strip()`: drop leading and trailing whitespace. -/
def pyStrip (s : String) : List Char :=
  ((s.data.dropWhile pyIsSpace).reverse.dropWhile pyIsSpace).reverse

/-- `fail`: log a `FAIL:`-prefixed message to stderr and return the code. -/
def fail (msg : String) (code : Nat) : Nat × List OutEvent :=
  (code, [OutEvent.stderrLine ("FAIL: " ++ msg)])

/-- `p.exists() and p.is_file() and p.stat().st_size > 0`. -/
def goodFile (fs : FS) (p : String) : Bool :=
  match fs p with
  | some e => e.isFile && decide (e.size > 0)
  | none => false

/-- The `for p in CANON_PATHS` loop of `_find_guide`. -/
def findCanon (fs : FS) : Option String :=
  CANON_PATHS.find? (goodFile fs)

/-- `_find_guide`: resolved guide path, or `none` if not found.  An empty
`--guide` string is falsy in Python, so it falls through to the loop. -/
def _find_guide (fs : FS) (custom : Option String) : Option String :=
  match custom with
  | some c =>
    if c.isEmpty then findCanon fs
    else if goodFile fs c then some c else none
  | none => findCanon fs

/-- `_missing_anchors`: the anchors not occurring in the text. -/
def _missing_anchors (text : String) (anchors : List String) : List String :=
  anchors.filter (fun a => !strContains text a)

/-- `p.read_text(...)`: on a missing path the call raises
`FileNotFoundError`, modelled as an error result. -/
def readText (fs : FS) (p : String) : Except String String :=
  match fs p with
  | some e => e.readResult
  | none => Except.error ("No such file or directory: " ++ p)

/-- `json.loads(p.read_text(...))`: a read failure propagates; otherwise
the recorded parse result of the contents. -/
def loadJson (fs : FS) (p : String) : Except String JsonVal :=
  match fs p with
  | some e =>
    match e.readResult with
    | Except.error exc => Except.error exc
    | Except.ok _ => e.parseResult
  | none => Except.error ("No such file or directory: " ++ p)

/-- `isinstance(x, str) and x.strip()` on an optional field value:
`x.strip()` is truthy exactly when it is non-empty. -/
def nonEmptyStrField (v : Option JsonVal) : Bool :=
  match v with
  | some (JsonVal.str s) => !(pyStrip s).isEmpty
  | _ => false

/-- `principles.get(k) is True`: Python identity with the boolean `True`,
so `false`, `1`, `"true"` and a missing key all yield `false`. -/
def valueIsTrue (v : Option JsonVal) : Bool :=
  match v with
  | some (JsonVal.bool true) => true
  | _ => false

/-- `isinstance(x, dict)` on an optional field value. -/
def isObjField (v : Option JsonVal) : Bool :=
  match v with
  | some (JsonVal.obj _) => true
  | _ => false

/-- `_validate_manifest_schema`: `none` if valid, otherwise the violation
message, following the source's check order exactly. -/
def _validate_manifest_schema (v : JsonVal) : Option String :=
  match v with
  | JsonVal.obj fields =>
    let project := fields.lookup "project"
    let run_id := fields.lookup "run_id"
    let principles := fields.lookup "principles"
    if !nonEmptyStrField project then
      some "compliance.json.project must be a non-empty string"
    else if !nonEmptyStrField run_id then
      some "compliance.json.run_id must be a non-empty string"
    else
      match principles with
      | some (JsonVal.obj pf) =>
        let missing := pKeys.filter (fun k => (pf.lookup k).isNone)
        if !missing.isEmpty then
          some ("compliance.principles missing keys: "
            ++ String.intercalate ", " missing)
        else
          let notTrue := pKeys.filter (fun k => !valueIsTrue (pf.lookup k))
          if !notTrue.isEmpty then
            some ("non-compliant principles (must be true): "
              ++ String.intercalate ", " notTrue)
          else none
      | _ => some "compliance.json.principles must be an object"
  | _ => some "compliance.json root must be an object"

-- ------------------------------ Main ---------------------------------

/-- `args.guide or 'N/A (no --guide)'` (an empty string is falsy). -/
def guideOrNA (guide : Option String) : String :=
  match guide with
  | some s => if s.isEmpty then "N/A (no --guide)" else s
  | none => "N/A (no --guide)"

/-- The success payload printed on exit 0. -/
def successPayload (guidePath : String) : JsonVal :=
  JsonVal.obj
    [("ok", JsonVal.bool true),
     ("guide", JsonVal.str guidePath),
     ("manifest", JsonVal.str COMPLIANCE_JSON),
     ("principles", JsonVal.str "P1..P18")]

/-- Steps 3 (manifest presence/parse) and 4 (schema) of `run`, plus the
success report, entered once the guide and anchor checks passed. -/
def manifestStage (fs : FS) (args : Args) (guidePath : String) :
    Nat × List OutEvent :=
  if (fs COMPLIANCE_JSON).isNone then
    let msg := "Missing compliance manifest: " ++ COMPLIANCE_JSON
    if args.jsonFlag then
      (EXIT_VIOLATION, [OutEvent.jsonOut (JsonVal.obj
        [("ok", JsonVal.bool false), ("error", JsonVal.str msg),
         ("code", JsonVal.num (Int.ofNat EXIT_VIOLATION)),
         ("guide", JsonVal.str guidePath)])])
    else fail msg EXIT_VIOLATION
  else
    match loadJson fs COMPLIANCE_JSON with
    | Except.error exc =>
      let msg := "Malformed compliance.json (invalid JSON): " ++ exc
      if args.jsonFlag then
        (EXIT_ERROR, [OutEvent.jsonOut (JsonVal.obj
          [("ok", JsonVal.bool false), ("error", JsonVal.str msg),
           ("code", JsonVal.num (Int.ofNat EXIT_ERROR)),
           ("manifest", JsonVal.str COMPLIANCE_JSON)])])
      else (EXIT_ERROR, [OutEvent.stderrLine msg])
    | Except.ok manifest_obj =>
      match _validate_manifest_schema manifest_obj with
      | some schema_err =>
        if args.jsonFlag then
          (EXIT_VIOLATION, [OutEvent.jsonOut (JsonVal.obj
            [("ok", JsonVal.bool false), ("error", JsonVal.str schema_err),
             ("code", JsonVal.num (Int.ofNat EXIT_VIOLATION)),
             ("manifest", JsonVal.str COMPLIANCE_JSON),
             ("guide", JsonVal.str guidePath)])])
        else fail schema_err EXIT_VIOLATION
      | none => (EXIT_OK, [OutEvent.jsonOut (successPayload guidePath)])

/-- `run`: the whole checker, from parsed arguments and a filesystem
state to the exit code and the printed output. -/
def run (fs : FS) (args : Args) : Nat × List OutEvent :=
  match _find_guide fs args.guide with
  | none =>
    let msg := "Guide not found. Checked: " ++ guideOrNA args.guide ++ ", "
      ++ String.intercalate ", " CANON_PATHS
      ++ "; files must exist and be non-empty."
    if args.jsonFlag then
      (EXIT_VIOLATION, [OutEvent.jsonOut (JsonVal.obj
        [("ok", JsonVal.bool false), ("error", JsonVal.str msg),
         ("code", JsonVal.num (Int.ofNat EXIT_VIOLATION))])])
    else fail msg EXIT_VIOLATION
  | some guidePath =>
    match readText fs guidePath with
    | Except.error exc =>
      let msg := "Failed to read guide '" ++ guidePath ++ "': " ++ exc
      if args.jsonFlag then
        (EXIT_ERROR, [OutEvent.jsonOut (JsonVal.obj
          [("ok", JsonVal.bool false), ("error", JsonVal.str msg),
           ("code", JsonVal.num (Int.ofNat EXIT_ERROR))])])
      else (EXIT_ERROR, [OutEvent.stderrLine msg])
    | Except.ok text =>
      let missing := _missing_anchors text PRINCIPLES
      if !missing.isEmpty then
        let msg := "Guide missing required anchors: "
          ++ String.intercalate ", " missing
        if args.jsonFlag then
          (EXIT_VIOLATION, [OutEvent.jsonOut (JsonVal.obj
            [("ok", JsonVal.bool false), ("error", JsonVal.str msg),
             ("code", JsonVal.num (Int.ofNat EXIT_VIOLATION)),
             ("guide", JsonVal.str guidePath)])])
        else fail msg EXIT_VIOLATION
      else manifestStage fs args guidePath

/-- The fixed failure marker test: does the stderr line start with
the marker `fail` prepends? -/
def startsWithFailMarker (m : String) : Bool :=
  List.isPrefixOf ("FAIL: ".data) m.data

-- --------------------------- Test fixtures ---------------------------

/-- A guide text containing every required anchor. -/
def guideTextAll : String := String.intercalate " " PRINCIPLES

/-- A principles object mapping every key P1..P18 to boolean true. -/
def pfAllTrue : List (String × JsonVal) :=
  pKeys.map (fun k => (k, JsonVal.bool true))

/-- The fields of a fully compliant manifest. -/
def manifestFieldsGood : List (String × JsonVal) :=
  [("project", JsonVal.str "acme"),
   ("run_id", JsonVal.str "r1"),
   ("principles", JsonVal.obj pfAllTrue)]

/-- A fully compliant manifest value. -/
def manifestGood : JsonVal := JsonVal.obj manifestFieldsGood

/-- A guide file entry whose contents are `guideTextAll`. -/
def entryGuideGood : FileEntry :=
  { isFile := true, size := 1, readResult := Except.ok guideTextAll,
    parseResult := Except.error "Expecting value" }

/-- A manifest file entry that parses to `manifestGood`. -/
def entryManifestGood : FileEntry :=
  { isFile := true, size := 1, readResult := Except.ok "manifest body",
    parseResult := Except.ok manifestGood }

/-- A filesystem with a good guide at the first canonical path and a
fully compliant manifest. -/
def fsGood : FS := fun p =>
  if p = "docs/MULTI_DOCUMENT_ENTERPRISE_CODING_PRINCIPLES_GUIDE.md" then
    some entryGuideGood
  else if p = "policy/compliance.json" then some entryManifestGood
  else none

example : (run fsGood { guide := none, jsonFlag := false }).1 = 0 := by decide
example : (run fsGood { guide := none, jsonFlag := false }).2
    = [OutEvent.jsonOut (successPayload
        "docs/MULTI_DOCUMENT_ENTERPRISE_CODING_PRINCIPLES_GUIDE.md")] := rfl

-- --------------------------- Helper lemmas ---------------------------

theorem run_eq_manifestStage (fs : FS) (args : Args) (g text : String)
    (hg : _find_guide fs args.guide = some g)
    (hr : readText fs g = Except.ok text)
    (ha : _missing_anchors text PRINCIPLES = []) :
    run fs args = manifestStage fs args g := by
  simp [run, hg, hr, ha]

theorem loadJson_isSome (fs : FS) (p : String) (v : JsonVal)
    (h : loadJson fs p = Except.ok v) : (fs p).isNone = false := by
  unfold loadJson at h
  cases hfs : fs p with
  | none => rw [hfs] at h; exact absurd h (by simp)
  | some e => simp

theorem manifestStage_parse_err (fs : FS) (args : Args) (g e : String)
    (hex : (fs COMPLIANCE_JSON).isNone = false)
    (hl : loadJson fs COMPLIANCE_JSON = Except.error e) :
    manifestStage fs args g
      = (if args.jsonFlag then
          (EXIT_ERROR, [OutEvent.jsonOut (JsonVal.obj
            [("ok", JsonVal.bool false),
             ("error", JsonVal.str
               ("Malformed compliance.json (invalid JSON): " ++ e)),
             ("code", JsonVal.num (Int.ofNat EXIT_ERROR)),
             ("manifest", JsonVal.str COMPLIANCE_JSON)])])
        else (EXIT_ERROR, [OutEvent.stderrLine
          ("Malformed compliance.json (invalid JSON): " ++ e)])) := by
  simp [manifestStage, hex, hl]

theorem manifestStage_schema_err (fs : FS) (args : Args) (g : String)
    (v : JsonVal) (err : String)
    (hl : loadJson fs COMPLIANCE_JSON = Except.ok v)
    (hv : _validate_manifest_schema v = some err) :
    manifestStage fs args g
      = (if args.jsonFlag then
          (EXIT_VIOLATION, [OutEvent.jsonOut (JsonVal.obj
            [("ok", JsonVal.bool false), ("error", JsonVal.str err),
             ("code", JsonVal.num (Int.ofNat EXIT_VIOLATION)),
             ("manifest", JsonVal.str COMPLIANCE_JSON),
             ("guide", JsonVal.str g)])])
        else fail err EXIT_VIOLATION) := by
  simp [manifestStage, loadJson_isSome fs COMPLIANCE_JSON v hl, hl, hv]

theorem manifestStage_valid (fs : FS) (args : Args) (g : String)
    (v : JsonVal)
    (hl : loadJson fs COMPLIANCE_JSON = Except.ok v)
    (hv : _validate_manifest_schema v = none) :
    manifestStage fs args g = (EXIT_OK, [OutEvent.jsonOut (successPayload g)]) := by
  simp [manifestStage, loadJson_isSome fs COMPLIANCE_JSON v hl, hl, hv]

theorem schema_not_obj (v : JsonVal) (h : ∀ fields, v ≠ JsonVal.obj fields) :
    _validate_manifest_schema v = some "compliance.json root must be an object" := by
  cases v with
  | obj fields => exact absurd rfl (h fields)
  | null => rfl
  | bool b => rfl
  | num n => rfl
  | str s => rfl
  | arr elems => rfl

theorem schema_project_bad (fields : List (String × JsonVal))
    (h : nonEmptyStrField (fields.lookup "project") = false) :
    _validate_manifest_schema (JsonVal.obj fields)
      = some "compliance.json.project must be a non-empty string" := by
  simp [_validate_manifest_schema, h]

theorem schema_runid_bad (fields : List (String × JsonVal))
    (hp : nonEmptyStrField (fields.lookup "project") = true)
    (h : nonEmptyStrField (fields.lookup "run_id") = false) :
    _validate_manifest_schema (JsonVal.obj fields)
      = some "compliance.json.run_id must be a non-empty string" := by
  simp [_validate_manifest_schema, hp, h]

theorem schema_principles_not_obj (fields : List (String × JsonVal))
    (hp : nonEmptyStrField (fields.lookup "project") = true)
    (hr : nonEmptyStrField (fields.lookup "run_id") = true)
    (h : isObjField (fields.lookup "principles") = false) :
    _validate_manifest_schema (JsonVal.obj fields)
      = some "compliance.json.principles must be an object" := by
  simp only [_validate_manifest_schema, hp, hr, Bool.not_true, if_false]
  cases hpr : fields.lookup "principles" with
  | none => rfl
  | some pv =>
    cases pv with
    | obj pf => rw [hpr] at h; exact absurd h (by simp [isObjField])
    | null => rfl
    | bool b => rfl
    | num n => rfl
    | str s => rfl
    | arr elems => rfl

theorem schema_missing_keys (fields : List (String × JsonVal))
    (pf : List (String × JsonVal))
    (hp : nonEmptyStrField (fields.lookup "project") = true)
    (hr : nonEmptyStrField (fields.lookup "run_id") = true)
    (hpr : fields.lookup "principles" = some (JsonVal.obj pf))
    (hm : (pKeys.filter (fun k => (pf.lookup k).isNone)).isEmpty = false) :
    _validate_manifest_schema (JsonVal.obj fields)
      = some ("compliance.principles missing keys: " ++ String.intercalate ", "
          (pKeys.filter (fun k => (pf.lookup k).isNone))) := by
  simp [_validate_manifest_schema, hp, hr, hpr, hm]

theorem schema_not_true (fields : List (String × JsonVal))
    (pf : List (String × JsonVal))
    (hp : nonEmptyStrField (fields.lookup "project") = true)
    (hr : nonEmptyStrField (fields.lookup "run_id") = true)
    (hpr : fields.lookup "principles" = some (JsonVal.obj pf))
    (hm : (pKeys.filter (fun k => (pf.lookup k).isNone)).isEmpty = true)
    (hn : (pKeys.filter (fun k => !valueIsTrue (pf.lookup k))).isEmpty = false) :
    _validate_manifest_schema (JsonVal.obj fields)
      = some ("non-compliant principles (must be true): " ++ String.intercalate ", "
          (pKeys.filter (fun k => !valueIsTrue (pf.lookup k)))) := by
  simp [_validate_manifest_schema, hp, hr, hpr, hm, hn]

theorem schema_valid (fields : List (String × JsonVal))
    (pf : List (String × JsonVal))
    (hp : nonEmptyStrField (fields.lookup "project") = true)
    (hr : nonEmptyStrField (fields.lookup "run_id") = true)
    (hpr : fields.lookup "principles" = some (JsonVal.obj pf))
    (hm : (pKeys.filter (fun k => (pf.lookup k).isNone)).isEmpty = true)
    (hn : (pKeys.filter (fun k => !valueIsTrue (pf.lookup k))).isEmpty = true) :
    _validate_manifest_schema (JsonVal.obj fields) = none := by
  simp [_validate_manifest_schema, hp, hr, hpr, hm, hn]

-- --------------------------- Claim theorems --------------------------

/-- Claim C1: whenever the resolved guide file reads successfully and
contains all 18 anchor strings, and `policy/compliance.json` loads as a
JSON object with non-empty (after stripping) string fields `project` and
`run_id` and a `principles` mapping binding every key P1..P18 to boolean
true, `run` returns exit code 0 and prints a structured success payload
to stdout containing the resolved guide path and the manifest path. -/
theorem run_success_all_green (fs : FS) (args : Args) (g text : String)
    (fields pf : List (String × JsonVal))
    (hg : _find_guide fs args.guide = some g)
    (hr : readText fs g = Except.ok text)
    (ha : ∀ a ∈ PRINCIPLES, strContains text a = true)
    (hm : loadJson fs COMPLIANCE_JSON = Except.ok (JsonVal.obj fields))
    (hp : nonEmptyStrField (fields.lookup "project") = true)
    (hrid : nonEmptyStrField (fields.lookup "run_id") = true)
    (hpr : fields.lookup "principles" = some (JsonVal.obj pf))
    (htrue : ∀ k ∈ pKeys, valueIsTrue (pf.lookup k) = true) :
    (run fs args).1 = EXIT_OK
    ∧ ∃ out, (run fs args).2 = [OutEvent.jsonOut (JsonVal.obj out)]
      ∧ ("guide", JsonVal.str g) ∈ out
      ∧ ("manifest", JsonVal.str COMPLIANCE_JSON) ∈ out := by
  have hanch : _missing_anchors text PRINCIPLES = [] := by
    apply List.filter_eq_nil_iff.mpr
    intro a hain
    simp [ha a hain]
  have hrun := run_eq_manifestStage fs args g text hg hr hanch
  have hmiss : (pKeys.filter (fun k => (pf.lookup k).isNone)).isEmpty = true := by
    rw [List.isEmpty_iff]
    apply List.filter_eq_nil_iff.mpr
    intro k hk
    have hv := htrue k hk
    cases hlk : pf.lookup k with
    | none => rw [hlk] at hv; exact absurd hv (by simp [valueIsTrue])
    | some v => simp
  have hnt : (pKeys.filter (fun k => !valueIsTrue (pf.lookup k))).isEmpty = true := by
    rw [List.isEmpty_iff]
    apply List.filter_eq_nil_iff.mpr
    intro k hk
    simp [htrue k hk]
  have hval := schema_valid fields pf hp hrid hpr hmiss hnt
  have hms := manifestStage_valid fs args g _ hm hval
  rw [hrun, hms]
  refine ⟨rfl, ?_⟩
  refine ⟨[("ok", JsonVal.bool true), ("guide", JsonVal.str g),
           ("manifest", JsonVal.str COMPLIANCE_JSON),
           ("principles", JsonVal.str "P1..P18")], rfl, ?_, ?_⟩
  · simp
  · simp

/-- Witness for C1 at a concrete all-green filesystem. -/
theorem run_success_all_green_witness :
    _find_guide fsGood none
      = some "docs/MULTI_DOCUMENT_ENTERPRISE_CODING_PRINCIPLES_GUIDE.md"
    ∧ readText fsGood "docs/MULTI_DOCUMENT_ENTERPRISE_CODING_PRINCIPLES_GUIDE.md"
      = Except.ok guideTextAll
    ∧ (∀ a ∈ PRINCIPLES, strContains guideTextAll a = true)
    ∧ loadJson fsGood COMPLIANCE_JSON = Except.ok (JsonVal.obj manifestFieldsGood)
    ∧ nonEmptyStrField (manifestFieldsGood.lookup "project") = true
    ∧ nonEmptyStrField (manifestFieldsGood.lookup "run_id") = true
    ∧ manifestFieldsGood.lookup "principles" = some (JsonVal.obj pfAllTrue)
    ∧ (∀ k ∈ pKeys, valueIsTrue (pfAllTrue.lookup k) = true)
    ∧ ((run fsGood { guide := none, jsonFlag := false }).1 = EXIT_OK
       ∧ ∃ out, (run fsGood { guide := none, jsonFlag := false }).2
           = [OutEvent.jsonOut (JsonVal.obj out)]
         ∧ ("guide", JsonVal.str
             "docs/MULTI_DOCUMENT_ENTERPRISE_CODING_PRINCIPLES_GUIDE.md") ∈ out
         ∧ ("manifest", JsonVal.str COMPLIANCE_JSON) ∈ out) :=
  ⟨by decide, rfl, by decide, rfl, by decide, by decide, rfl,
   by decide,
   run_success_all_green fsGood { guide := none, jsonFlag := false }
     "docs/MULTI_DOCUMENT_ENTERPRISE_CODING_PRINCIPLES_GUIDE.md" guideTextAll
     manifestFieldsGood pfAllTrue (by decide) rfl (by decide) rfl
     (by decide) (by decide) rfl (by decide)⟩

/-- Build manifest fields with given principles object and good
`project` and `run_id` fields. -/
def mfWith (pf : List (String × JsonVal)) : List (String × JsonVal) :=
  [("project", JsonVal.str "acme"),
   ("run_id", JsonVal.str "r1"),
   ("principles", JsonVal.obj pf)]

/-- A principles object with `P5` bound to false and the rest true. -/
def pfP5False : List (String × JsonVal) :=
  pKeys.map (fun k => (k, JsonVal.bool (!(k == "P5"))))

/-- A principles object with every key but `P12`, all bound to true. -/
def pfNoP12 : List (String × JsonVal) :=
  (pKeys.filter (fun k => !(k == "P12"))).map (fun k => (k, JsonVal.bool true))

/-- A filesystem with the good guide and a manifest parsing to `m`. -/
def fsWithManifest (m : JsonVal) : FS := fun p =>
  if p = "docs/MULTI_DOCUMENT_ENTERPRISE_CODING_PRINCIPLES_GUIDE.md" then
    some entryGuideGood
  else if p = "policy/compliance.json" then
    some { isFile := true, size := 1, readResult := Except.ok "manifest body",
           parseResult := Except.ok m }
  else none

/-- Claim C2: in a run that reaches schema validation, a principles
mapping containing all keys P1..P18 but binding any of them to something
other than boolean true makes the validator report the offending keys
and `run` exit 2; and a principles mapping lacking some key Pk makes the
validator report that key as missing and `run` exit 2. -/
theorem validator_nontrue_and_missing_exit2 :
    (∀ (fs : FS) (args : Args) (g text : String)
       (fields pf : List (String × JsonVal)),
      _find_guide fs args.guide = some g →
      readText fs g = Except.ok text →
      _missing_anchors text PRINCIPLES = [] →
      loadJson fs COMPLIANCE_JSON = Except.ok (JsonVal.obj fields) →
      nonEmptyStrField (fields.lookup "project") = true →
      nonEmptyStrField (fields.lookup "run_id") = true →
      fields.lookup "principles" = some (JsonVal.obj pf) →
      (∀ k ∈ pKeys, (pf.lookup k).isSome = true) →
      (∃ k ∈ pKeys, valueIsTrue (pf.lookup k) = false) →
      _validate_manifest_schema (JsonVal.obj fields)
        = some ("non-compliant principles (must be true): "
            ++ String.intercalate ", "
              (pKeys.filter (fun k => !valueIsTrue (pf.lookup k))))
      ∧ (run fs args).1 = EXIT_VIOLATION)
    ∧ (∀ (fs : FS) (args : Args) (g text : String)
       (fields pf : List (String × JsonVal)) (k : String),
      _find_guide fs args.guide = some g →
      readText fs g = Except.ok text →
      _missing_anchors text PRINCIPLES = [] →
      loadJson fs COMPLIANCE_JSON = Except.ok (JsonVal.obj fields) →
      nonEmptyStrField (fields.lookup "project") = true →
      nonEmptyStrField (fields.lookup "run_id") = true →
      fields.lookup "principles" = some (JsonVal.obj pf) →
      k ∈ pKeys → pf.lookup k = none →
      _validate_manifest_schema (JsonVal.obj fields)
        = some ("compliance.principles missing keys: "
            ++ String.intercalate ", "
              (pKeys.filter (fun k => (pf.lookup k).isNone)))
      ∧ k ∈ pKeys.filter (fun k => (pf.lookup k).isNone)
      ∧ (run fs args).1 = EXIT_VIOLATION) := by
  constructor
  · intro fs args g text fields pf hg hr ha hm hp hrid hpr hall hex
    have hmiss : (pKeys.filter (fun k => (pf.lookup k).isNone)).isEmpty = true := by
      rw [List.isEmpty_iff]
      apply List.filter_eq_nil_iff.mpr
      intro k hk
      have hs := hall k hk
      cases hlk : pf.lookup k with
      | none => rw [hlk] at hs; simp at hs
      | some v => simp
    have hne : (pKeys.filter (fun k => !valueIsTrue (pf.lookup k))).isEmpty = false := by
      obtain ⟨k, hk, hv⟩ := hex
      have hmem : k ∈ pKeys.filter (fun k => !valueIsTrue (pf.lookup k)) :=
        List.mem_filter.mpr ⟨hk, by simp [hv]⟩
      have hnil := List.ne_nil_of_mem hmem
      simpa [List.isEmpty_iff] using hnil
    have hsch := schema_not_true fields pf hp hrid hpr hmiss hne
    refine ⟨hsch, ?_⟩
    rw [run_eq_manifestStage fs args g text hg hr ha]
    rw [manifestStage_schema_err fs args g _ _ hm hsch]
    split
    · rfl
    · rfl
  · intro fs args g text fields pf k hg hr ha hm hp hrid hpr hk hnone
    have hmem : k ∈ pKeys.filter (fun k => (pf.lookup k).isNone) :=
      List.mem_filter.mpr ⟨hk, by simp [hnone]⟩
    have hne : (pKeys.filter (fun k => (pf.lookup k).isNone)).isEmpty = false := by
      have hnil := List.ne_nil_of_mem hmem
      simpa [List.isEmpty_iff] using hnil
    have hsch := schema_missing_keys fields pf hp hrid hpr hne
    refine ⟨hsch, hmem, ?_⟩
    rw [run_eq_manifestStage fs args g text hg hr ha]
    rw [manifestStage_schema_err fs args g _ _ hm hsch]
    split
    · rfl
    · rfl

/-- Witness for C2: `P5` bound to false, and `P12` missing. -/
theorem validator_nontrue_and_missing_exit2_witness :
    ((∃ k ∈ pKeys, valueIsTrue (pfP5False.lookup k) = false)
     ∧ _validate_manifest_schema (JsonVal.obj (mfWith pfP5False))
         = some ("non-compliant principles (must be true): "
             ++ String.intercalate ", "
               (pKeys.filter (fun k => !valueIsTrue (pfP5False.lookup k))))
     ∧ (run (fsWithManifest (JsonVal.obj (mfWith pfP5False)))
         { guide := none, jsonFlag := false }).1 = EXIT_VIOLATION)
    ∧ ("P12" ∈ pKeys ∧ pfNoP12.lookup "P12" = none
     ∧ _validate_manifest_schema (JsonVal.obj (mfWith pfNoP12))
         = some ("compliance.principles missing keys: "
             ++ String.intercalate ", "
               (pKeys.filter (fun k => (pfNoP12.lookup k).isNone)))
     ∧ "P12" ∈ pKeys.filter (fun k => (pfNoP12.lookup k).isNone)
     ∧ (run (fsWithManifest (JsonVal.obj (mfWith pfNoP12)))
         { guide := none, jsonFlag := false }).1 = EXIT_VIOLATION) := by
  have ha := validator_nontrue_and_missing_exit2.1
    (fsWithManifest (JsonVal.obj (mfWith pfP5False)))
    { guide := none, jsonFlag := false }
    "docs/MULTI_DOCUMENT_ENTERPRISE_CODING_PRINCIPLES_GUIDE.md" guideTextAll
    (mfWith pfP5False) pfP5False (by decide) rfl (by decide) rfl
    (by decide) (by decide) rfl (by decide) (by decide)
  have hb := validator_nontrue_and_missing_exit2.2
    (fsWithManifest (JsonVal.obj (mfWith pfNoP12)))
    { guide := none, jsonFlag := false }
    "docs/MULTI_DOCUMENT_ENTERPRISE_CODING_PRINCIPLES_GUIDE.md" guideTextAll
    (mfWith pfNoP12) pfNoP12 "P12" (by decide) rfl (by decide) rfl
    (by decide) (by decide) rfl (by decide) rfl
  exact ⟨⟨by decide, ha.1, ha.2⟩, ⟨by decide, rfl, hb.1, hb.2.1, hb.2.2⟩⟩

/-- Claim C3: when the guide check passes and `policy/compliance.json`
exists but does not load as JSON, `run` exits 1; when the manifest loads
but fails a schema check, `run` exits 2; the two exit codes differ. -/
theorem parse_failure_vs_schema_failure :
    (∀ (fs : FS) (args : Args) (g text e : String),
      _find_guide fs args.guide = some g →
      readText fs g = Except.ok text →
      _missing_anchors text PRINCIPLES = [] →
      (fs COMPLIANCE_JSON).isNone = false →
      loadJson fs COMPLIANCE_JSON = Except.error e →
      (run fs args).1 = EXIT_ERROR)
    ∧ (∀ (fs : FS) (args : Args) (g text err : String) (v : JsonVal),
      _find_guide fs args.guide = some g →
      readText fs g = Except.ok text →
      _missing_anchors text PRINCIPLES = [] →
      loadJson fs COMPLIANCE_JSON = Except.ok v →
      _validate_manifest_schema v = some err →
      (run fs args).1 = EXIT_VIOLATION)
    ∧ EXIT_ERROR ≠ EXIT_VIOLATION := by
  refine ⟨?_, ?_, by decide⟩
  · intro fs args g text e hg hr ha hex hl
    rw [run_eq_manifestStage fs args g text hg hr ha]
    rw [manifestStage_parse_err fs args g e hex hl]
    split
    · rfl
    · rfl
  · intro fs args g text err v hg hr ha hl hv
    rw [run_eq_manifestStage fs args g text hg hr ha]
    rw [manifestStage_schema_err fs args g v err hl hv]
    split
    · rfl
    · rfl

/-- A filesystem with the good guide and a manifest whose contents do
not parse as JSON. -/
def fsBadJson : FS := fun p =>
  if p = "docs/MULTI_DOCUMENT_ENTERPRISE_CODING_PRINCIPLES_GUIDE.md" then
    some entryGuideGood
  else if p = "policy/compliance.json" then
    some { isFile := true, size := 1, readResult := Except.ok "not json",
           parseResult := Except.error "Expecting value: line 1 column 1 (char 0)" }
  else none

/-- Witness for C3: an unparseable manifest exits 1; a parseable one
with a bad `project` field exits 2. -/
theorem parse_failure_vs_schema_failure_witness :
    ((fsBadJson COMPLIANCE_JSON).isNone = false
     ∧ loadJson fsBadJson COMPLIANCE_JSON
         = Except.error "Expecting value: line 1 column 1 (char 0)"
     ∧ (run fsBadJson { guide := none, jsonFlag := false }).1 = EXIT_ERROR)
    ∧ (_validate_manifest_schema (JsonVal.obj [])
         = some "compliance.json.project must be a non-empty string"
     ∧ (run (fsWithManifest (JsonVal.obj []))
         { guide := none, jsonFlag := false }).1 = EXIT_VIOLATION)
    ∧ EXIT_ERROR ≠ EXIT_VIOLATION :=
  ⟨⟨by decide, rfl,
    parse_failure_vs_schema_failure.1 fsBadJson
      { guide := none, jsonFlag := false }
      "docs/MULTI_DOCUMENT_ENTERPRISE_CODING_PRINCIPLES_GUIDE.md" guideTextAll
      "Expecting value: line 1 column 1 (char 0)"
      (by decide) rfl (by decide) (by decide) rfl⟩,
   ⟨rfl,
    parse_failure_vs_schema_failure.2.1 (fsWithManifest (JsonVal.obj []))
      { guide := none, jsonFlag := false }
      "docs/MULTI_DOCUMENT_ENTERPRISE_CODING_PRINCIPLES_GUIDE.md" guideTextAll
      "compliance.json.project must be a non-empty string" (JsonVal.obj [])
      (by decide) rfl (by decide) rfl rfl⟩,
   by decide⟩

/-- A filesystem with only the first canonical guide present. -/
def fsCanonOnly : FS := fun p =>
  if p = "docs/MULTI_DOCUMENT_ENTERPRISE_CODING_PRINCIPLES_GUIDE.md" then
    some entryGuideGood
  else none

/-- A filesystem with only the second canonical guide present. -/
def fsGithubOnly : FS := fun p =>
  if p = ".github/policy/MULTI_DOCUMENT_ENTERPRISE_CODING_PRINCIPLES_GUIDE.md" then
    some entryGuideGood
  else none

/-- Counterexample to C4: with an override path at which no file exists
while the first canonical guide exists and is non-empty, the locator
returns not-found instead of the canonical path: it does not fall back. -/
theorem guide_locator_no_fallback_cex :
    goodFile fsCanonOnly "override.md" = false
    ∧ goodFile fsCanonOnly
        "docs/MULTI_DOCUMENT_ENTERPRISE_CODING_PRINCIPLES_GUIDE.md" = true
    ∧ _find_guide fsCanonOnly (some "override.md") = none
    ∧ ¬ (_find_guide fsCanonOnly (some "override.md")
        = some "docs/MULTI_DOCUMENT_ENTERPRISE_CODING_PRINCIPLES_GUIDE.md") := by
  refine ⟨rfl, rfl, rfl, ?_⟩
  decide

/-- Claim C4 as amended: when a non-empty override path is given, only
it is considered — it is returned if it is an existing, non-empty
regular file, and otherwise the locator reports not-found without
consulting the canonical paths; when no override is given (or an empty
one, which the CLI treats as absent), the first existing, non-empty
regular file among the two canonical paths, in order, is returned. -/
theorem guide_locator_amended :
    (∀ (fs : FS) (c : String), c.isEmpty = false → goodFile fs c = true →
      _find_guide fs (some c) = some c)
    ∧ (∀ (fs : FS) (c : String), c.isEmpty = false → goodFile fs c = false →
      _find_guide fs (some c) = none)
    ∧ (∀ fs : FS,
      goodFile fs "docs/MULTI_DOCUMENT_ENTERPRISE_CODING_PRINCIPLES_GUIDE.md" = true →
      _find_guide fs none
        = some "docs/MULTI_DOCUMENT_ENTERPRISE_CODING_PRINCIPLES_GUIDE.md")
    ∧ (∀ fs : FS,
      goodFile fs "docs/MULTI_DOCUMENT_ENTERPRISE_CODING_PRINCIPLES_GUIDE.md" = false →
      goodFile fs
        ".github/policy/MULTI_DOCUMENT_ENTERPRISE_CODING_PRINCIPLES_GUIDE.md" = true →
      _find_guide fs none
        = some ".github/policy/MULTI_DOCUMENT_ENTERPRISE_CODING_PRINCIPLES_GUIDE.md")
    ∧ (∀ fs : FS,
      goodFile fs "docs/MULTI_DOCUMENT_ENTERPRISE_CODING_PRINCIPLES_GUIDE.md" = false →
      goodFile fs
        ".github/policy/MULTI_DOCUMENT_ENTERPRISE_CODING_PRINCIPLES_GUIDE.md" = false →
      _find_guide fs none = none)
    ∧ (∀ fs : FS, _find_guide fs (some "") = _find_guide fs none) := by
  refine ⟨?_, ?_, ?_, ?_, ?_, ?_⟩
  · intro fs c hc hgood
    simp [_find_guide, hc, hgood]
  · intro fs c hc hgood
    simp [_find_guide, hc, hgood]
  · intro fs h1
    simp [_find_guide, findCanon, CANON_PATHS, List.find?, h1]
  · intro fs h1 h2
    simp [_find_guide, findCanon, CANON_PATHS, List.find?, h1, h2]
  · intro fs h1 h2
    simp [_find_guide, findCanon, CANON_PATHS, List.find?, h1, h2]
  · intro fs
    rfl

/-- Witness for the amended C4 at concrete filesystems. -/
theorem guide_locator_amended_witness :
    ("docs/MULTI_DOCUMENT_ENTERPRISE_CODING_PRINCIPLES_GUIDE.md".isEmpty = false
     ∧ goodFile fsCanonOnly
         "docs/MULTI_DOCUMENT_ENTERPRISE_CODING_PRINCIPLES_GUIDE.md" = true
     ∧ _find_guide fsCanonOnly
         (some "docs/MULTI_DOCUMENT_ENTERPRISE_CODING_PRINCIPLES_GUIDE.md")
       = some "docs/MULTI_DOCUMENT_ENTERPRISE_CODING_PRINCIPLES_GUIDE.md")
    ∧ ("override.md".isEmpty = false
     ∧ goodFile fsCanonOnly "override.md" = false
     ∧ _find_guide fsCanonOnly (some "override.md") = none)
    ∧ _find_guide fsCanonOnly none
        = some "docs/MULTI_DOCUMENT_ENTERPRISE_CODING_PRINCIPLES_GUIDE.md"
    ∧ _find_guide fsGithubOnly none
        = some ".github/policy/MULTI_DOCUMENT_ENTERPRISE_CODING_PRINCIPLES_GUIDE.md"
    ∧ _find_guide (fun _ => none) none = none
    ∧ _find_guide fsGithubOnly (some "") = _find_guide fsGithubOnly none :=
  ⟨⟨rfl, rfl,
    guide_locator_amended.1 fsCanonOnly
      "docs/MULTI_DOCUMENT_ENTERPRISE_CODING_PRINCIPLES_GUIDE.md" rfl rfl⟩,
   ⟨rfl, rfl, guide_locator_amended.2.1 fsCanonOnly "override.md" rfl rfl⟩,
   guide_locator_amended.2.2.1 fsCanonOnly rfl,
   guide_locator_amended.2.2.2.1 fsGithubOnly rfl rfl,
   guide_locator_amended.2.2.2.2.1 (fun _ => none) rfl rfl,
   guide_locator_amended.2.2.2.2.2 fsGithubOnly⟩

theorem run_anchor_fail (fs : FS) (args : Args) (g text : String)
    (hg : _find_guide fs args.guide = some g)
    (hr : readText fs g = Except.ok text)
    (he : (_missing_anchors text PRINCIPLES).isEmpty = false) :
    run fs args
      = (if args.jsonFlag then
          (EXIT_VIOLATION, [OutEvent.jsonOut (JsonVal.obj
            [("ok", JsonVal.bool false),
             ("error", JsonVal.str ("Guide missing required anchors: "
               ++ String.intercalate ", " (_missing_anchors text PRINCIPLES))),
             ("code", JsonVal.num (Int.ofNat EXIT_VIOLATION)),
             ("guide", JsonVal.str g)])])
        else fail ("Guide missing required anchors: "
          ++ String.intercalate ", " (_missing_anchors text PRINCIPLES))
          EXIT_VIOLATION) := by
  simp [run, hg, hr, he]

/-- Claim C5: the anchor scanner returns exactly the required anchors
that are not substrings of the guide text (a pure containment check,
order-independent); when that list is non-empty `run` exits 2 with a
message listing exactly the missing anchors, and when it is empty the
anchor stage passes through to the manifest stage. -/
theorem anchor_scanner_exact :
    (∀ text a : String, a ∈ _missing_anchors text PRINCIPLES
      ↔ a ∈ PRINCIPLES ∧ strContains text a = false)
    ∧ (∀ (fs : FS) (args : Args) (g text : String),
      _find_guide fs args.guide = some g →
      readText fs g = Except.ok text →
      _missing_anchors text PRINCIPLES ≠ [] →
      (run fs args).1 = EXIT_VIOLATION
      ∧ (args.jsonFlag = false → (run fs args).2
          = [OutEvent.stderrLine ("FAIL: " ++ ("Guide missing required anchors: "
              ++ String.intercalate ", " (_missing_anchors text PRINCIPLES)))])
      ∧ (args.jsonFlag = true → (run fs args).2
          = [OutEvent.jsonOut (JsonVal.obj
              [("ok", JsonVal.bool false),
               ("error", JsonVal.str ("Guide missing required anchors: "
                 ++ String.intercalate ", " (_missing_anchors text PRINCIPLES))),
               ("code", JsonVal.num (Int.ofNat EXIT_VIOLATION)),
               ("guide", JsonVal.str g)])]))
    ∧ (∀ (fs : FS) (args : Args) (g text : String),
      _find_guide fs args.guide = some g →
      readText fs g = Except.ok text →
      _missing_anchors text PRINCIPLES = [] →
      run fs args = manifestStage fs args g) := by
  refine ⟨?_, ?_, ?_⟩
  · intro text a
    unfold _missing_anchors
    rw [List.mem_filter]
    simp [Bool.not_eq_true']
  · intro fs args g text hg hr hne
    have he : (_missing_anchors text PRINCIPLES).isEmpty = false := by
      simpa [List.isEmpty_iff] using hne
    have heq := run_anchor_fail fs args g text hg hr he
    rw [heq]
    cases hj : args.jsonFlag with
    | false => exact ⟨rfl, fun _ => rfl, fun h => absurd h (by simp)⟩
    | true => exact ⟨rfl, fun h => absurd h (by simp), fun _ => rfl⟩
  · intro fs args g text hg hr ha
    exact run_eq_manifestStage fs args g text hg hr ha

/-- A guide text containing every anchor except `Principle 7:`. -/
def guideTextNoP7 : String :=
  String.intercalate " " (PRINCIPLES.filter (fun a => !(a == "Principle 7:")))

/-- A filesystem whose guide lacks the `Principle 7:` anchor. -/
def fsNoP7 : FS := fun p =>
  if p = "docs/MULTI_DOCUMENT_ENTERPRISE_CODING_PRINCIPLES_GUIDE.md" then
    some { isFile := true, size := 1, readResult := Except.ok guideTextNoP7,
           parseResult := Except.error "Expecting value" }
  else none

/-- Witness for C5: only `Principle 7:` is reported missing, `run`
exits 2 and the plain-mode message lists exactly it. -/
theorem anchor_scanner_exact_witness :
    _missing_anchors guideTextNoP7 PRINCIPLES = ["Principle 7:"]
    ∧ ("Principle 7:" ∈ _missing_anchors guideTextNoP7 PRINCIPLES
      ↔ "Principle 7:" ∈ PRINCIPLES
        ∧ strContains guideTextNoP7 "Principle 7:" = false)
    ∧ ((run fsNoP7 { guide := none, jsonFlag := false }).1 = EXIT_VIOLATION
      ∧ ((false : Bool) = false → (run fsNoP7 { guide := none, jsonFlag := false }).2
          = [OutEvent.stderrLine ("FAIL: " ++ ("Guide missing required anchors: "
              ++ String.intercalate ", " (_missing_anchors guideTextNoP7 PRINCIPLES)))])
      ∧ ((false : Bool) = true → (run fsNoP7 { guide := none, jsonFlag := false }).2
          = [OutEvent.jsonOut (JsonVal.obj
              [("ok", JsonVal.bool false),
               ("error", JsonVal.str ("Guide missing required anchors: "
                 ++ String.intercalate ", " (_missing_anchors guideTextNoP7 PRINCIPLES))),
               ("code", JsonVal.num (Int.ofNat EXIT_VIOLATION)),
               ("guide", JsonVal.str
                 "docs/MULTI_DOCUMENT_ENTERPRISE_CODING_PRINCIPLES_GUIDE.md")])])) :=
  ⟨by decide,
   anchor_scanner_exact.1 guideTextNoP7 "Principle 7:",
   anchor_scanner_exact.2.1 fsNoP7 { guide := none, jsonFlag := false }
     "docs/MULTI_DOCUMENT_ENTERPRISE_CODING_PRINCIPLES_GUIDE.md" guideTextNoP7
     (by decide) rfl (by decide)⟩

/-- Manifest fields with a whitespace-only project. -/
def mfWsProject : List (String × JsonVal) :=
  [("project", JsonVal.str " \t "),
   ("run_id", JsonVal.str "r1"),
   ("principles", JsonVal.obj pfAllTrue)]

/-- Claim C6: a `project` field that is not a string or strips to empty
is reported as a violation (and likewise `run_id`, checked after
`project`); in a run that reaches validation this exits 2; in
particular a whitespace-only `project` string fails, including strings
of non-ASCII whitespace such as U+001C or U+00A0 that `str.strip()`
also removes. -/
theorem project_runid_nonempty_string :
    (∀ fields : List (String × JsonVal),
      nonEmptyStrField (fields.lookup "project") = false →
      _validate_manifest_schema (JsonVal.obj fields)
        = some "compliance.json.project must be a non-empty string")
    ∧ (∀ fields : List (String × JsonVal),
      nonEmptyStrField (fields.lookup "project") = true →
      nonEmptyStrField (fields.lookup "run_id") = false →
      _validate_manifest_schema (JsonVal.obj fields)
        = some "compliance.json.run_id must be a non-empty string")
    ∧ nonEmptyStrField (some (JsonVal.str " \t ")) = false
    ∧ nonEmptyStrField (some (JsonVal.str "\u001C")) = false
    ∧ nonEmptyStrField (some (JsonVal.str "\u00A0")) = false
    ∧ (∀ (fs : FS) (args : Args) (g text : String)
       (fields : List (String × JsonVal)),
      _find_guide fs args.guide = some g →
      readText fs g = Except.ok text →
      _missing_anchors text PRINCIPLES = [] →
      loadJson fs COMPLIANCE_JSON = Except.ok (JsonVal.obj fields) →
      nonEmptyStrField (fields.lookup "project") = false →
      (run fs args).1 = EXIT_VIOLATION) := by
  refine ⟨?_, ?_, by decide, by decide, by decide, ?_⟩
  · intro fields h
    exact schema_project_bad fields h
  · intro fields hp h
    exact schema_runid_bad fields hp h
  · intro fs args g text fields hg hr ha hm hp
    rw [run_eq_manifestStage fs args g text hg hr ha]
    rw [manifestStage_schema_err fs args g _ _ hm (schema_project_bad fields hp)]
    split
    · rfl
    · rfl

/-- Witness for C6: a whitespace-only project, a U+001C-only project,
and an empty run_id. -/
theorem project_runid_nonempty_string_witness :
    (nonEmptyStrField (mfWsProject.lookup "project") = false
     ∧ _validate_manifest_schema (JsonVal.obj mfWsProject)
         = some "compliance.json.project must be a non-empty string")
    ∧ (nonEmptyStrField
         ([("project", JsonVal.str "\u001C"),
           ("run_id", JsonVal.str "r1")].lookup "project") = false
     ∧ _validate_manifest_schema (JsonVal.obj
         [("project", JsonVal.str "\u001C"), ("run_id", JsonVal.str "r1")])
         = some "compliance.json.project must be a non-empty string")
    ∧ (nonEmptyStrField
         ((mfWith pfAllTrue).lookup "project") = true
     ∧ nonEmptyStrField
         ([("project", JsonVal.str "acme"),
           ("run_id", JsonVal.str "")].lookup "run_id") = false
     ∧ _validate_manifest_schema (JsonVal.obj
         [("project", JsonVal.str "acme"), ("run_id", JsonVal.str "")])
         = some "compliance.json.run_id must be a non-empty string")
    ∧ nonEmptyStrField (some (JsonVal.str " \t ")) = false
    ∧ nonEmptyStrField (some (JsonVal.str "\u001C")) = false
    ∧ nonEmptyStrField (some (JsonVal.str "\u00A0")) = false
    ∧ (run (fsWithManifest (JsonVal.obj mfWsProject))
        { guide := none, jsonFlag := false }).1 = EXIT_VIOLATION :=
  ⟨⟨by decide, project_runid_nonempty_string.1 mfWsProject (by decide)⟩,
   ⟨by decide,
    project_runid_nonempty_string.1
      [("project", JsonVal.str "\u001C"), ("run_id", JsonVal.str "r1")]
      (by decide)⟩,
   ⟨by decide, by decide,
    project_runid_nonempty_string.2.1
      [("project", JsonVal.str "acme"), ("run_id", JsonVal.str "")]
      (by decide) (by decide)⟩,
   by decide, by decide, by decide,
   project_runid_nonempty_string.2.2.2.2.2
     (fsWithManifest (JsonVal.obj mfWsProject)) { guide := none, jsonFlag := false }
     "docs/MULTI_DOCUMENT_ENTERPRISE_CODING_PRINCIPLES_GUIDE.md" guideTextAll
     mfWsProject (by decide) rfl (by decide) rfl (by decide)⟩

theorem manifestStage_missing (fs : FS) (args : Args) (g : String)
    (hex : (fs COMPLIANCE_JSON).isNone = true) :
    manifestStage fs args g
      = (if args.jsonFlag then
          (EXIT_VIOLATION, [OutEvent.jsonOut (JsonVal.obj
            [("ok", JsonVal.bool false),
             ("error", JsonVal.str
               ("Missing compliance manifest: " ++ COMPLIANCE_JSON)),
             ("code", JsonVal.num (Int.ofNat EXIT_VIOLATION)),
             ("guide", JsonVal.str g)])])
        else fail ("Missing compliance manifest: " ++ COMPLIANCE_JSON)
          EXIT_VIOLATION) := by
  simp [manifestStage, hex]

theorem isPrefixOf_append_left {α : Type} [BEq α] (l m k : List α)
    (h : l.length ≤ m.length) :
    List.isPrefixOf l (m ++ k) = List.isPrefixOf l m := by
  induction l generalizing m with
  | nil => simp [List.isPrefixOf]
  | cons a as ih =>
    cases m with
    | nil => exact absurd h (by simp)
    | cons b bs =>
      show (a == b && List.isPrefixOf as (bs ++ k))
        = (a == b && List.isPrefixOf as bs)
      rw [ih bs (by simpa using h)]

theorem marker_false_read_fail (g e : String) :
    startsWithFailMarker ("Failed to read guide '" ++ g ++ "': " ++ e) = false := by
  unfold startsWithFailMarker
  rw [String.data_append, String.data_append, String.data_append,
    List.append_assoc, List.append_assoc]
  rw [isPrefixOf_append_left _ _ _ (by decide)]
  decide

theorem marker_false_malformed (e : String) :
    startsWithFailMarker ("Malformed compliance.json (invalid JSON): " ++ e) = false := by
  unfold startsWithFailMarker
  rw [String.data_append]
  rw [isPrefixOf_append_left _ _ _ (by decide)]
  decide

/-- Every possible outcome of `run`, by exhaustive branch analysis: a
plain-mode violation with a marked stderr line, a plain-mode unexpected
error with an unmarked stderr line, a structured failure payload on
stdout, or the structured success payload on stdout. -/
theorem run_shape (fs : FS) (args : Args) :
    (args.jsonFlag = false ∧ ∃ m, run fs args
      = (EXIT_VIOLATION, [OutEvent.stderrLine ("FAIL: " ++ m)]))
    ∨ (args.jsonFlag = false ∧ ∃ m, run fs args
      = (EXIT_ERROR, [OutEvent.stderrLine m]) ∧ startsWithFailMarker m = false)
    ∨ (args.jsonFlag = true ∧ ∃ v, ((run fs args).1 = EXIT_VIOLATION
        ∨ (run fs args).1 = EXIT_ERROR)
      ∧ (run fs args).2 = [OutEvent.jsonOut v])
    ∨ (∃ g, _find_guide fs args.guide = some g
      ∧ run fs args = (EXIT_OK, [OutEvent.jsonOut (successPayload g)])) := by
  cases hfind : _find_guide fs args.guide with
  | none =>
    cases hj : args.jsonFlag with
    | false =>
      left
      refine ⟨rfl, "Guide not found. Checked: " ++ guideOrNA args.guide ++ ", "
        ++ String.intercalate ", " CANON_PATHS
        ++ "; files must exist and be non-empty.", ?_⟩
      simp [run, hfind, hj, fail]
    | true =>
      right; right; left
      refine ⟨rfl, JsonVal.obj
        [("ok", JsonVal.bool false),
         ("error", JsonVal.str ("Guide not found. Checked: "
           ++ guideOrNA args.guide ++ ", "
           ++ String.intercalate ", " CANON_PATHS
           ++ "; files must exist and be non-empty.")),
         ("code", JsonVal.num (Int.ofNat EXIT_VIOLATION))], Or.inl ?_, ?_⟩
      · simp [run, hfind, hj]
      · simp [run, hfind, hj]
  | some g =>
    cases hread : readText fs g with
    | error e =>
      cases hj : args.jsonFlag with
      | false =>
        right; left
        refine ⟨rfl, "Failed to read guide '" ++ g ++ "': " ++ e, ?_,
          marker_false_read_fail g e⟩
        simp [run, hfind, hread, hj]
      | true =>
        right; right; left
        refine ⟨rfl, JsonVal.obj
          [("ok", JsonVal.bool false),
           ("error", JsonVal.str ("Failed to read guide '" ++ g ++ "': " ++ e)),
           ("code", JsonVal.num (Int.ofNat EXIT_ERROR))], Or.inr ?_, ?_⟩
        · simp [run, hfind, hread, hj]
        · simp [run, hfind, hread, hj]
    | ok text =>
      cases he : (_missing_anchors text PRINCIPLES).isEmpty with
      | false =>
        have heq := run_anchor_fail fs args g text hfind hread he
        cases hj : args.jsonFlag with
        | false =>
          left
          exact ⟨rfl, _, by rw [heq, hj]; rfl⟩
        | true =>
          right; right; left
          exact ⟨rfl, JsonVal.obj
            [("ok", JsonVal.bool false),
             ("error", JsonVal.str ("Guide missing required anchors: "
               ++ String.intercalate ", " (_missing_anchors text PRINCIPLES))),
             ("code", JsonVal.num (Int.ofNat EXIT_VIOLATION)),
             ("guide", JsonVal.str g)],
            Or.inl (by rw [heq, hj]; rfl), by rw [heq, hj]; rfl⟩
      | true =>
        have hpass : run fs args = manifestStage fs args g :=
          run_eq_manifestStage fs args g text hfind hread (List.isEmpty_iff.mp he)
        cases hex : (fs COMPLIANCE_JSON).isNone with
        | true =>
          have heq := manifestStage_missing fs args g hex
          cases hj : args.jsonFlag with
          | false =>
            left
            exact ⟨rfl, _, by rw [hpass, heq, hj]; rfl⟩
          | true =>
            right; right; left
            exact ⟨rfl, JsonVal.obj
              [("ok", JsonVal.bool false),
               ("error", JsonVal.str
                 ("Missing compliance manifest: " ++ COMPLIANCE_JSON)),
               ("code", JsonVal.num (Int.ofNat EXIT_VIOLATION)),
               ("guide", JsonVal.str g)],
              Or.inl (by rw [hpass, heq, hj]; rfl), by rw [hpass, heq, hj]; rfl⟩
        | false =>
          cases hload : loadJson fs COMPLIANCE_JSON with
          | error e =>
            have heq := manifestStage_parse_err fs args g e hex hload
            cases hj : args.jsonFlag with
            | false =>
              right; left
              exact ⟨rfl, _, by rw [hpass, heq, hj]; rfl,
                marker_false_malformed e⟩
            | true =>
              right; right; left
              exact ⟨rfl, JsonVal.obj
                [("ok", JsonVal.bool false),
                 ("error", JsonVal.str
                   ("Malformed compliance.json (invalid JSON): " ++ e)),
                 ("code", JsonVal.num (Int.ofNat EXIT_ERROR)),
                 ("manifest", JsonVal.str COMPLIANCE_JSON)],
                Or.inr (by rw [hpass, heq, hj]; rfl), by rw [hpass, heq, hj]; rfl⟩
          | ok v =>
            cases hval : _validate_manifest_schema v with
            | some err =>
              have heq := manifestStage_schema_err fs args g v err hload hval
              cases hj : args.jsonFlag with
              | false =>
                left
                exact ⟨rfl, _, by rw [hpass, heq, hj]; rfl⟩
              | true =>
                right; right; left
                exact ⟨rfl, JsonVal.obj
                  [("ok", JsonVal.bool false), ("error", JsonVal.str err),
                   ("code", JsonVal.num (Int.ofNat EXIT_VIOLATION)),
                   ("manifest", JsonVal.str COMPLIANCE_JSON),
                   ("guide", JsonVal.str g)],
                  Or.inl (by rw [hpass, heq, hj]; rfl), by rw [hpass, heq, hj]; rfl⟩
            | none =>
              right; right; right
              exact ⟨g, rfl,
                by rw [hpass, manifestStage_valid fs args g v hload hval]⟩

/-- Counterexample to C7: a plain-mode unexpected-error failure (exit 1,
malformed manifest JSON) prints its stderr message WITHOUT the fixed
`FAIL: ` marker. -/
theorem fail_marker_cex :
    (run fsBadJson { guide := none, jsonFlag := false }).1 = EXIT_ERROR
    ∧ (run fsBadJson { guide := none, jsonFlag := false }).2
        = [OutEvent.stderrLine
            "Malformed compliance.json (invalid JSON): Expecting value: line 1 column 1 (char 0)"]
    ∧ startsWithFailMarker
        "Malformed compliance.json (invalid JSON): Expecting value: line 1 column 1 (char 0)"
      = false := ⟨by decide, rfl, by decide⟩

/-- Claim C7 as amended: in plain-text mode, policy-violation failures
(exit 2) print a stderr message prefixed with the fixed failure marker,
while unexpected-error failures (exit 1) print their stderr message
without the marker; in structured mode every failure prints a structured
payload to stdout instead. -/
theorem fail_marker_amended :
    (∀ (fs : FS) (args : Args), args.jsonFlag = false →
      (run fs args).1 = EXIT_VIOLATION →
      ∃ m, (run fs args).2 = [OutEvent.stderrLine ("FAIL: " ++ m)])
    ∧ (∀ (fs : FS) (args : Args), args.jsonFlag = false →
      (run fs args).1 = EXIT_ERROR →
      ∃ m, (run fs args).2 = [OutEvent.stderrLine m]
        ∧ startsWithFailMarker m = false)
    ∧ (∀ (fs : FS) (args : Args), args.jsonFlag = true →
      (run fs args).1 ≠ EXIT_OK →
      ∃ v, (run fs args).2 = [OutEvent.jsonOut v]) := by
  refine ⟨?_, ?_, ?_⟩
  · intro fs args hj h
    rcases run_shape fs args with ⟨_, m, hrun⟩ | ⟨_, m, hrun, _⟩
      | ⟨hj2, _⟩ | ⟨g, _, hrun⟩
    · exact ⟨m, by rw [hrun]⟩
    · rw [hrun] at h; simp [EXIT_ERROR, EXIT_VIOLATION] at h
    · rw [hj] at hj2; exact absurd hj2 (by decide)
    · rw [hrun] at h; simp [EXIT_OK, EXIT_VIOLATION] at h
  · intro fs args hj h
    rcases run_shape fs args with ⟨_, m, hrun⟩ | ⟨_, m, hrun, hm⟩
      | ⟨hj2, _⟩ | ⟨g, _, hrun⟩
    · rw [hrun] at h; simp [EXIT_ERROR, EXIT_VIOLATION] at h
    · exact ⟨m, by rw [hrun], hm⟩
    · rw [hj] at hj2; exact absurd hj2 (by decide)
    · rw [hrun] at h; simp [EXIT_OK, EXIT_ERROR] at h
  · intro fs args hj h
    rcases run_shape fs args with ⟨hj2, _⟩ | ⟨hj2, _⟩
      | ⟨_, v, _, hout⟩ | ⟨g, _, hrun⟩
    · rw [hj] at hj2; exact absurd hj2 (by decide)
    · rw [hj] at hj2; exact absurd hj2 (by decide)
    · exact ⟨v, hout⟩
    · rw [hrun] at h; exact absurd rfl h

/-- Witness for the amended C7: a violation prints a marked message, a
malformed manifest prints an unmarked one, and structured mode prints a
payload. -/
theorem fail_marker_amended_witness :
    ((run fsNoP7 { guide := none, jsonFlag := false }).1 = EXIT_VIOLATION
     ∧ ∃ m, (run fsNoP7 { guide := none, jsonFlag := false }).2
         = [OutEvent.stderrLine ("FAIL: " ++ m)])
    ∧ ((run fsBadJson { guide := none, jsonFlag := false }).1 = EXIT_ERROR
     ∧ ∃ m, (run fsBadJson { guide := none, jsonFlag := false }).2
         = [OutEvent.stderrLine m] ∧ startsWithFailMarker m = false)
    ∧ ((run fsBadJson { guide := none, jsonFlag := true }).1 ≠ EXIT_OK
     ∧ ∃ v, (run fsBadJson { guide := none, jsonFlag := true }).2
         = [OutEvent.jsonOut v]) :=
  ⟨⟨by decide, fail_marker_amended.1 fsNoP7 { guide := none, jsonFlag := false }
      rfl (by decide)⟩,
   ⟨by decide, fail_marker_amended.2.1 fsBadJson { guide := none, jsonFlag := false }
      rfl (by decide)⟩,
   ⟨by decide, fail_marker_amended.2.2 fsBadJson { guide := none, jsonFlag := true }
      rfl (by decide)⟩⟩

/-- Claim C8: the checker's exit code and printed output are a function
of the filesystem contents and the argument list alone, so two
invocations against pointwise-equal filesystem states produce identical
results — there is no hidden state. -/
theorem run_deterministic (fs fs2 : FS) (args : Args)
    (h : ∀ p, fs p = fs2 p) : run fs args = run fs2 args := by
  have heq : fs = fs2 := funext h
  rw [heq]

/-- Witness for C8: two invocations on the same filesystem agree. -/
theorem run_deterministic_witness :
    (∀ p, fsGood p = fsGood p)
    ∧ run fsGood { guide := none, jsonFlag := false }
      = run fsGood { guide := none, jsonFlag := false } :=
  ⟨fun _ => rfl,
   run_deterministic fsGood fsGood { guide := none, jsonFlag := false }
     (fun _ => rfl)⟩

theorem run_not_found_code (fs : FS) (args : Args)
    (hfind : _find_guide fs args.guide = none) :
    (run fs args).1 = EXIT_VIOLATION := by
  cases hj : args.jsonFlag with
  | false => simp [run, hfind, hj, fail]
  | true => simp [run, hfind, hj]

theorem run_read_fail_code (fs : FS) (args : Args) (g e : String)
    (hfind : _find_guide fs args.guide = some g)
    (hread : readText fs g = Except.error e) :
    (run fs args).1 = EXIT_ERROR := by
  cases hj : args.jsonFlag with
  | false => simp [run, hfind, hread, hj]
  | true => simp [run, hfind, hread, hj]

/-- A run that exits 0 passed every stage. -/
theorem run_zero_conditions (fs : FS) (args : Args)
    (h : (run fs args).1 = EXIT_OK) :
    ∃ g text v, _find_guide fs args.guide = some g
      ∧ readText fs g = Except.ok text
      ∧ _missing_anchors text PRINCIPLES = []
      ∧ loadJson fs COMPLIANCE_JSON = Except.ok v
      ∧ _validate_manifest_schema v = none := by
  cases hfind : _find_guide fs args.guide with
  | none =>
    rw [run_not_found_code fs args hfind] at h
    exact absurd h (by decide)
  | some g =>
    cases hread : readText fs g with
    | error e =>
      rw [run_read_fail_code fs args g e hfind hread] at h
      exact absurd h (by decide)
    | ok text =>
      cases he : (_missing_anchors text PRINCIPLES).isEmpty with
      | false =>
        have hcode : (run fs args).1 = EXIT_VIOLATION := by
          rw [run_anchor_fail fs args g text hfind hread he]
          split
          · rfl
          · rfl
        rw [hcode] at h
        exact absurd h (by decide)
      | true =>
        have hpass : run fs args = manifestStage fs args g :=
          run_eq_manifestStage fs args g text hfind hread (List.isEmpty_iff.mp he)
        cases hex : (fs COMPLIANCE_JSON).isNone with
        | true =>
          have hcode : (run fs args).1 = EXIT_VIOLATION := by
            rw [hpass, manifestStage_missing fs args g hex]
            split
            · rfl
            · rfl
          rw [hcode] at h
          exact absurd h (by decide)
        | false =>
          cases hload : loadJson fs COMPLIANCE_JSON with
          | error e =>
            have hcode : (run fs args).1 = EXIT_ERROR := by
              rw [hpass, manifestStage_parse_err fs args g e hex hload]
              split
              · rfl
              · rfl
            rw [hcode] at h
            exact absurd h (by decide)
          | ok v =>
            cases hval : _validate_manifest_schema v with
            | some err =>
              have hcode : (run fs args).1 = EXIT_VIOLATION := by
                rw [hpass, manifestStage_schema_err fs args g v err hload hval]
                split
                · rfl
                · rfl
              rw [hcode] at h
              exact absurd h (by decide)
            | none =>
              exact ⟨g, text, v, rfl, hread, List.isEmpty_iff.mp he, rfl, hval⟩

/-- Claim C9: every successful invocation prints the structured JSON
success payload to stdout, whether or not `--json` was given — success
output does not depend on the flag, only failure output does. -/
theorem success_structured_output :
    (∀ (fs : FS) (args : Args), (run fs args).1 = EXIT_OK →
      ∃ g, _find_guide fs args.guide = some g
        ∧ (run fs args).2 = [OutEvent.jsonOut (successPayload g)])
    ∧ (∀ (fs : FS) (gopt : Option String) (b b' : Bool),
      (run fs { guide := gopt, jsonFlag := b }).1 = EXIT_OK →
      run fs { guide := gopt, jsonFlag := b }
        = run fs { guide := gopt, jsonFlag := b' }) := by
  constructor
  · intro fs args h
    obtain ⟨g, text, v, hfind, hread, ha, hload, hval⟩ :=
      run_zero_conditions fs args h
    have hrun := run_eq_manifestStage fs args g text hfind hread ha
    have hms := manifestStage_valid fs args g v hload hval
    exact ⟨g, hfind, by rw [hrun, hms]⟩
  · intro fs gopt b b' h
    obtain ⟨g, text, v, hfind, hread, ha, hload, hval⟩ :=
      run_zero_conditions fs { guide := gopt, jsonFlag := b } h
    have h1 := run_eq_manifestStage fs { guide := gopt, jsonFlag := b }
      g text hfind hread ha
    have h2 := run_eq_manifestStage fs { guide := gopt, jsonFlag := b' }
      g text hfind hread ha
    rw [h1, h2, manifestStage_valid fs { guide := gopt, jsonFlag := b } g v hload hval,
      manifestStage_valid fs { guide := gopt, jsonFlag := b' } g v hload hval]

/-- Witness for C9 on the all-green filesystem, with and without the
structured-output flag. -/
theorem success_structured_output_witness :
    ((run fsGood { guide := none, jsonFlag := true }).1 = EXIT_OK
     ∧ ∃ g, _find_guide fsGood none = some g
       ∧ (run fsGood { guide := none, jsonFlag := true }).2
         = [OutEvent.jsonOut (successPayload g)])
    ∧ ((run fsGood { guide := none, jsonFlag := false }).1 = EXIT_OK
     ∧ run fsGood { guide := none, jsonFlag := false }
       = run fsGood { guide := none, jsonFlag := true }) :=
  ⟨⟨by decide, success_structured_output.1 fsGood
      { guide := none, jsonFlag := true } (by decide)⟩,
   ⟨by decide, success_structured_output.2 fsGood none false true (by decide)⟩⟩

/-- A principles object missing `P12` and binding `P5` to false. -/
def pfMixed : List (String × JsonVal) :=
  (pKeys.filter (fun k => !(k == "P12"))).map
    (fun k => (k, JsonVal.bool (!(k == "P5"))))

/-- Claim C10: the manifest validator short-circuits in the fixed order
root-object, `project`, `run_id`, principles-object, missing keys,
non-true values, reporting only the first failing check; in particular
missing keys are reported even when other principles are non-true. -/
theorem validator_check_order :
    (∀ v : JsonVal, (∀ fields, v ≠ JsonVal.obj fields) →
      _validate_manifest_schema v
        = some "compliance.json root must be an object")
    ∧ (∀ fields : List (String × JsonVal),
      nonEmptyStrField (fields.lookup "project") = false →
      _validate_manifest_schema (JsonVal.obj fields)
        = some "compliance.json.project must be a non-empty string")
    ∧ (∀ fields : List (String × JsonVal),
      nonEmptyStrField (fields.lookup "project") = true →
      nonEmptyStrField (fields.lookup "run_id") = false →
      _validate_manifest_schema (JsonVal.obj fields)
        = some "compliance.json.run_id must be a non-empty string")
    ∧ (∀ fields : List (String × JsonVal),
      nonEmptyStrField (fields.lookup "project") = true →
      nonEmptyStrField (fields.lookup "run_id") = true →
      isObjField (fields.lookup "principles") = false →
      _validate_manifest_schema (JsonVal.obj fields)
        = some "compliance.json.principles must be an object")
    ∧ (∀ (fields pf : List (String × JsonVal)) (k : String),
      nonEmptyStrField (fields.lookup "project") = true →
      nonEmptyStrField (fields.lookup "run_id") = true →
      fields.lookup "principles" = some (JsonVal.obj pf) →
      k ∈ pKeys → (pf.lookup k).isNone = true →
      _validate_manifest_schema (JsonVal.obj fields)
        = some ("compliance.principles missing keys: "
            ++ String.intercalate ", "
              (pKeys.filter (fun k => (pf.lookup k).isNone))))
    ∧ (∀ fields pf : List (String × JsonVal),
      nonEmptyStrField (fields.lookup "project") = true →
      nonEmptyStrField (fields.lookup "run_id") = true →
      fields.lookup "principles" = some (JsonVal.obj pf) →
      (∀ k ∈ pKeys, (pf.lookup k).isSome = true) →
      (∃ k ∈ pKeys, valueIsTrue (pf.lookup k) = false) →
      _validate_manifest_schema (JsonVal.obj fields)
        = some ("non-compliant principles (must be true): "
            ++ String.intercalate ", "
              (pKeys.filter (fun k => !valueIsTrue (pf.lookup k))))) := by
  refine ⟨schema_not_obj, schema_project_bad, schema_runid_bad,
    schema_principles_not_obj, ?_, ?_⟩
  · intro fields pf k hp hr hpr hk hnone
    have hmem : k ∈ pKeys.filter (fun k => (pf.lookup k).isNone) :=
      List.mem_filter.mpr ⟨hk, by simp [hnone]⟩
    have hne : (pKeys.filter (fun k => (pf.lookup k).isNone)).isEmpty = false := by
      have hnil := List.ne_nil_of_mem hmem
      simpa [List.isEmpty_iff] using hnil
    exact schema_missing_keys fields pf hp hr hpr hne
  · intro fields pf hp hr hpr hall hex
    have hmiss : (pKeys.filter (fun k => (pf.lookup k).isNone)).isEmpty = true := by
      rw [List.isEmpty_iff]
      apply List.filter_eq_nil_iff.mpr
      intro k hk
      have hs := hall k hk
      cases hlk : pf.lookup k with
      | none => rw [hlk] at hs; simp at hs
      | some v => simp
    have hne : (pKeys.filter (fun k => !valueIsTrue (pf.lookup k))).isEmpty = false := by
      obtain ⟨k, hk, hv⟩ := hex
      have hmem : k ∈ pKeys.filter (fun k => !valueIsTrue (pf.lookup k)) :=
        List.mem_filter.mpr ⟨hk, by simp [hv]⟩
      have hnil := List.ne_nil_of_mem hmem
      simpa [List.isEmpty_iff] using hnil
    exact schema_not_true fields pf hp hr hpr hmiss hne

/-- Witness for C10: each stage of the fixed order at concrete
manifests, including the missing-beats-non-true case. -/
theorem validator_check_order_witness :
    _validate_manifest_schema (JsonVal.str "not an object")
      = some "compliance.json root must be an object"
    ∧ _validate_manifest_schema (JsonVal.obj mfWsProject)
      = some "compliance.json.project must be a non-empty string"
    ∧ _validate_manifest_schema
        (JsonVal.obj [("project", JsonVal.str "acme"), ("run_id", JsonVal.str "")])
      = some "compliance.json.run_id must be a non-empty string"
    ∧ _validate_manifest_schema
        (JsonVal.obj [("project", JsonVal.str "acme"),
          ("run_id", JsonVal.str "r1"), ("principles", JsonVal.str "x")])
      = some "compliance.json.principles must be an object"
    ∧ (valueIsTrue (pfMixed.lookup "P5") = false
      ∧ (pfMixed.lookup "P12").isNone = true
      ∧ _validate_manifest_schema (JsonVal.obj (mfWith pfMixed))
        = some ("compliance.principles missing keys: "
            ++ String.intercalate ", "
              (pKeys.filter (fun k => (pfMixed.lookup k).isNone))))
    ∧ _validate_manifest_schema (JsonVal.obj (mfWith pfP5False))
      = some ("non-compliant principles (must be true): "
          ++ String.intercalate ", "
            (pKeys.filter (fun k => !valueIsTrue (pfP5False.lookup k)))) :=
  ⟨validator_check_order.1 (JsonVal.str "not an object")
     (fun fields h => JsonVal.noConfusion h),
   validator_check_order.2.1 mfWsProject (by decide),
   validator_check_order.2.2.1
     [("project", JsonVal.str "acme"), ("run_id", JsonVal.str "")]
     (by decide) (by decide),
   validator_check_order.2.2.2.1
     [("project", JsonVal.str "acme"), ("run_id", JsonVal.str "r1"),
      ("principles", JsonVal.str "x")] (by decide) (by decide) (by decide),
   ⟨by decide, by decide,
    validator_check_order.2.2.2.2.1 (mfWith pfMixed) pfMixed "P12"
      (by decide) (by decide) rfl (by decide) (by decide)⟩,
   validator_check_order.2.2.2.2.2 (mfWith pfP5False) pfP5False
     (by decide) (by decide) rfl (by decide) (by decide)⟩
